import Mathlib

/-!
Shallow embedding of the Battleborn monitoring core: the Playtomic client
(`playtomic_client.py`), the availability collector and utilization
aggregator (`availability_service.py`), and the monitoring scheduler
(`scheduler.py`).  Times of day are minutes-since-midnight (`Nat`),
calendar dates are day numbers (`Int`), observation timestamps are ticks
(`Nat`), UTC instants are seconds (`ℚ`), and money is `ℚ`.
-/

namespace Battleborn

/-- A Python exception, by class and message. -/
inductive PyError where
  | attributeError (msg : String)
  | httpError (msg : String)
  | valueError (msg : String)
deriving DecidableEq

/-- A stored row of `availability_snapshots` (model `AvailabilitySnapshot`). -/
structure Snapshot where
  id : Nat
  club_id : Nat
  court_id : Nat
  snapshot_time : Nat
  date : Int
  start_time : Nat
  end_time : Nat
  status : String
  price : Option ℚ
deriving DecidableEq

/-- Maximum of a list of naturals, `none` on the empty list
(SQL `max` aggregate over a group). -/
def natListMax : List Nat → Option Nat
  | [] => none
  | x :: xs =>
    match natListMax xs with
    | none => some x
    | some m => some (max x m)

/-- The snapshot times of the rows matching the subquery filter of
`get_current_utilization` / `get_daily_utilization`: club, date, and one
`(court_id, start_time)` group. -/
def keyedSnapshotTimes (db : List Snapshot) (club : Nat) (d : Int)
    (court : Nat) (start : Nat) : List Nat :=
  (db.filter (fun t =>
    t.club_id == club && t.date == d && t.court_id == court &&
      t.start_time == start)).map (fun t => t.snapshot_time)

/-- `max(snapshot_time)` of the subquery group keyed by
`(court_id, start_time)` for the given club and date. -/
def maxSnapshotTime (db : List Snapshot) (club : Nat) (d : Int)
    (court : Nat) (start : Nat) : Option Nat :=
  natListMax (keyedSnapshotTimes db club d court start)

/-- The rows selected by the outer query of `get_current_utilization`
(and of each iteration of `get_daily_utilization`): it joins the subquery
on `court_id`, `start_time` and `snapshot_time == max_snapshot_time`, and
filters the outer table on `club_id` only — the outer side carries **no**
date condition, exactly as in the source. -/
def latestJoinSnapshots (db : List Snapshot) (club : Nat) (d : Int) :
    List Snapshot :=
  db.filter (fun s =>
    s.club_id == club &&
      maxSnapshotTime db club d s.court_id s.start_time == some s.snapshot_time)

/-- Round half to even, as Python `round` on an exact value. -/
def roundHalfEven (q : ℚ) : ℤ :=
  let f := ⌊q⌋
  if q - f < 1 / 2 then f
  else if q - f > 1 / 2 then f + 1
  else if f % 2 = 0 then f else f + 1

/-- Python `round(x, 2)` on an exact value. -/
def round2 (q : ℚ) : ℚ := (roundHalfEven (q * 100) : ℚ) / 100

/-- The statistics fields shared by `UtilizationCurrent` and
`UtilizationDaily`. -/
structure UtilizationStats where
  total_slots : Nat
  booked_slots : Nat
  free_slots : Nat
  closed_slots : Nat
  booked_percentage : ℚ
  free_percentage : ℚ
deriving DecidableEq

/-- The statistics block of `get_current_utilization` /
`get_daily_utilization`: status counts over the selected snapshots,
percentages guarded by `total_slots > 0`, rounded to 2 decimals. -/
def computeStats (snapshots : List Snapshot) : UtilizationStats :=
  let total := snapshots.length
  let booked := (snapshots.filter (fun s => s.status == "booked")).length
  let free := (snapshots.filter (fun s => s.status == "free")).length
  let closed := (snapshots.filter (fun s => s.status == "closed")).length
  let booked_percentage : ℚ := if total > 0 then (booked : ℚ) / total * 100 else 0
  let free_percentage : ℚ := if total > 0 then (free : ℚ) / total * 100 else 0
  { total_slots := total
    booked_slots := booked
    free_slots := free
    closed_slots := closed
    booked_percentage := round2 booked_percentage
    free_percentage := round2 free_percentage }

/-- `AvailabilityService.get_current_utilization` for an existing club:
statistics over the rows its latest-snapshot join selects for today. -/
def get_current_utilization (db : List Snapshot) (club : Nat) (today : Int) :
    UtilizationStats :=
  computeStats (latestJoinSnapshots db club today)

/-- One element of the list returned by `get_daily_utilization`. -/
structure DailyRow where
  date : Int
  stats : UtilizationStats
deriving DecidableEq

/-- The expression `datetime.timedelta(days=...)` as written at the end of
the `get_daily_utilization` loop body.  In the source, `datetime` is the
class imported by `from datetime import date, datetime, time as dt_time`,
and the class has no `timedelta` attribute, so evaluating the expression
raises `AttributeError`. -/
def datetimeClassTimedelta (_days : Int) : Except PyError Int :=
  .error (.attributeError
    "type object datetime.datetime has no attribute timedelta")

/-- The `while current_date <= to_date` loop of `get_daily_utilization`:
each iteration runs the latest-snapshot join for `cur`, appends a row when
`total_slots > 0`, then advances `cur` by `datetime.timedelta(days=1)` —
whose evaluation raises, discarding the accumulated rows. -/
def dailyLoop (db : List Snapshot) (club : Nat) (to_d : Int) :
    Nat → Int → List DailyRow → Except PyError (List DailyRow)
  | 0, _, acc => .ok acc
  | fuel + 1, cur, acc =>
    if cur ≤ to_d then
      let snaps := latestJoinSnapshots db club cur
      let acc2 :=
        if snaps.length > 0 then acc ++ [⟨cur, computeStats snaps⟩] else acc
      match datetimeClassTimedelta 1 with
      | .error e => .error e
      | .ok step => dailyLoop db club to_d fuel (cur + step) acc2
    else .ok acc

/-- `AvailabilityService.get_daily_utilization` for an existing club. -/
def get_daily_utilization (db : List Snapshot) (club : Nat)
    (from_d to_d : Int) : Except PyError (List DailyRow) :=
  dailyLoop db club to_d ((to_d + 1 - from_d).toNat + 1) from_d []

/-- The expression `asyncio.timedelta(days=...)` as written in the loop of
`PlaytomicClient.get_availability_range`.  The `asyncio` module has no
`timedelta` attribute, so evaluating the expression raises
`AttributeError` — before the `try` block that guards the per-day fetch. -/
def asyncioTimedelta (_days : Nat) : Except PyError Int :=
  .error (.attributeError "module asyncio has no attribute timedelta")

/-- The `for day_offset in range(days)` loop of `get_availability_range`:
computes `target_date` (raising, since it uses `asyncio.timedelta`), then
fetches that day inside `try`, skipping the date on fetch failure. -/
def availabilityRangeLoop {α : Type} (fetchDay : Int → Except PyError α)
    (start : Int) : Nat → Nat → Except PyError (List (Int × α))
  | 0, _ => .ok []
  | fuel + 1, day_offset =>
    match asyncioTimedelta day_offset with
    | .error e => .error e
    | .ok delta =>
      let target := start + delta
      match fetchDay target with
      | .ok d =>
        match availabilityRangeLoop fetchDay start fuel (day_offset + 1) with
        | .ok rest => .ok ((target, d) :: rest)
        | .error e => .error e
      | .error _ => availabilityRangeLoop fetchDay start fuel (day_offset + 1)

/-- `PlaytomicClient.get_availability_range`, parameterised by the per-day
fetch (`get_availability`). -/
def get_availability_range {α : Type} (fetchDay : Int → Except PyError α)
    (start_date : Int) (days : Nat) : Except PyError (List (Int × α)) :=
  availabilityRangeLoop fetchDay start_date days 0

/-- The `for attempt in range(self.max_retries)` loop of
`PlaytomicClient._make_request`, parameterised by the outcome of each
attempt.  Returns the result together with the list of backoff sleeps
performed (in seconds).  A failed attempt that is not the last sleeps
`2 ** attempt` seconds and retries; the last failed attempt re-raises;
an exhausted loop (only reachable with `max_retries = 0`) raises
`Max retries exceeded`. -/
def makeRequestLoop {α : Type} (att : Nat → Except PyError α)
    (max_retries : Nat) : Nat → Nat → List Nat → Except PyError α × List Nat
  | 0, _, sleeps => (.error (.httpError "Max retries exceeded"), sleeps)
  | fuel + 1, i, sleeps =>
    match att i with
    | .ok a => (.ok a, sleeps)
    | .error e =>
      if i = max_retries - 1 then (.error e, sleeps)
      else makeRequestLoop att max_retries fuel (i + 1) (sleeps ++ [2 ^ i])

/-- `PlaytomicClient._make_request`, abstracted over the HTTP transport:
`att i` is the outcome of attempt number `i` (starting at 0). -/
def make_request {α : Type} (att : Nat → Except PyError α)
    (max_retries : Nat) : Except PyError α × List Nat :=
  makeRequestLoop att max_retries max_retries 0 []

/-- `MonitoringScheduler._is_within_monitoring_window`; times of day are
minutes since local midnight. -/
def is_within_monitoring_window (current_time : Nat)
    (start_time end_time : Option Nat) : Bool :=
  match start_time, end_time with
  | some s, some e =>
    if s ≤ e then s ≤ current_time && current_time ≤ e
    else current_time ≥ s || current_time ≤ e
  | _, _ => true

/-- A row of `monitoring_configs` (model `MonitoringConfig`); instants are
UTC seconds. -/
structure MConfig where
  club_id : Nat
  enabled : Bool
  frequency_minutes : ℚ
  start_time_local : Option Nat
  end_time_local : Option Nat
  days_ahead : Nat
  last_run_at : Option ℚ
deriving DecidableEq

/-- `MonitoringScheduler._should_run_now`: elapsed seconds divided by 60
compared against `frequency_minutes`; a null `last_run_at` is always due. -/
def should_run_now (last_run_at : Option ℚ) (frequency_minutes : ℚ)
    (current_time : ℚ) : Bool :=
  match last_run_at with
  | none => true
  | some t => decide (frequency_minutes ≤ (current_time - t) / 60)

/-- `MonitoringScheduler._process_monitoring_config` for one config:
missing club, out-of-window and not-due paths return with no change; a
due config triggers the collect, and `last_run_at` is advanced to
`now_utc` exactly when the collect succeeds (the `except` branch rolls
back, leaving the config unchanged). -/
def process_monitoring_config (clubExists : Nat → Bool)
    (localTime : Nat → Nat) (collect : Nat → Nat → Except PyError Unit)
    (now_utc : ℚ) (config : MConfig) : MConfig :=
  if !clubExists config.club_id then config
  else if !is_within_monitoring_window (localTime config.club_id)
      config.start_time_local config.end_time_local then config
  else if !should_run_now config.last_run_at config.frequency_minutes
      now_utc then config
  else
    match collect config.club_id config.days_ahead with
    | .ok _ => { config with last_run_at := some now_utc }
    | .error _ => config

/-- `MonitoringScheduler._check_and_monitor` over the whole config table:
the query keeps only enabled configs, and each one is processed under its
own `try`/`except`, so every config is evaluated regardless of the others'
outcomes. -/
def check_and_monitor (clubExists : Nat → Bool) (localTime : Nat → Nat)
    (collect : Nat → Nat → Except PyError Unit) (now_utc : ℚ)
    (configs : List MConfig) : List MConfig :=
  configs.map (fun c =>
    if c.enabled then
      process_monitoring_config clubExists localTime collect now_utc c
    else c)

/-- One raw slot entry of the upstream availability payload, as read by
`_process_and_store_availability` (times already parsed to minutes). -/
structure RawSlot where
  start_time : Nat
  end_time : Nat
  available : Bool
  closed : Bool
  price : Option ℚ
deriving DecidableEq

/-- The status derivation of `_process_and_store_availability`:
`"free" if is_available else "booked"`, overridden to `"closed"` when the
raw record is marked closed. -/
def derive_status (slot : RawSlot) : String :=
  let status := if slot.available then "free" else "booked"
  if slot.closed then "closed" else status

/-- `Decimal(str(price)) if price else None`: Python truthiness maps both
a missing price and a price of 0 to `None`. -/
def storedPrice (price : Option ℚ) : Option ℚ :=
  match price with
  | none => none
  | some p => if p = 0 then none else some p

/-- The snapshot row `_process_and_store_availability` builds for one raw
slot (the `AvailabilitySlot` it appends to the response carries the same
status and price fields). -/
def process_slot (sid club_id court_id : Nat) (target_date : Int)
    (snapshot_time : Nat) (slot : RawSlot) : Snapshot :=
  { id := sid
    club_id := club_id
    court_id := court_id
    snapshot_time := snapshot_time
    date := target_date
    start_time := slot.start_time
    end_time := slot.end_time
    status := derive_status slot
    price := storedPrice slot.price }

/-! ## Concrete inputs for the claims about the aggregator and the client -/

/-- A booked snapshot observed at tick 50 for day 0, club 1, court 1,
slot 10:00–11:30. -/
def snapDay0 : Snapshot :=
  { id := 1, club_id := 1, court_id := 1, snapshot_time := 50, date := 0,
    start_time := 600, end_time := 690, status := "booked", price := none }

/-- A free snapshot for day 1 written by the same collect call, hence
sharing club, court, start time and observation tick with `snapDay0`. -/
def snapDay1 : Snapshot :=
  { id := 2, club_id := 1, court_id := 1, snapshot_time := 50, date := 1,
    start_time := 600, end_time := 690, status := "free", price := none }

/-- The snapshot table holding the two rows above. -/
def twoDayDb : List Snapshot := [snapDay0, snapDay1]

/-- A per-day fetch that fails on day 3 and succeeds elsewhere. -/
def fetchFailsOnDay3 : Int → Except PyError Nat := fun d =>
  if d = 3 then .error (.httpError "503 Service Unavailable") else .ok 1

/-- C1: the claim states that `get_current_utilization` counts, per
(court, start time) key, only the snapshot of the requested date with the
maximal observation timestamp, and no snapshot of another date.  In the
source the outer query joins the subquery on court, start time and
max snapshot time but carries no date condition, so the day-1 snapshot —
which shares court, start time and observation tick with day 0's latest
snapshot — is also selected for day 0, and `total_slots` is 2 where the
claim requires 1. -/
theorem c1_other_date_counted :
    snapDay1 ∈ latestJoinSnapshots twoDayDb 1 0 ∧
    snapDay1.date ≠ 0 ∧
    (get_current_utilization twoDayDb 1 0).total_slots = 2 ∧
    (get_current_utilization twoDayDb 1 0).free_slots = 1 := by decide

/-- C2: the claim states that a 7-day range fetch with exactly one failing
day returns 6 per-day results.  The source computes `target_date` with
`asyncio.timedelta`, which does not exist, so the very first loop
iteration raises `AttributeError` outside the `try` block and the call
returns no results at all. -/
theorem c2_range_raises_attribute_error :
    get_availability_range fetchFailsOnDay3 0 7 =
      .error (.attributeError "module asyncio has no attribute timedelta") := by
  rfl

/-- C3: the claim states that `get_daily_utilization` returns one row per
date of `[from_d, to_d]` that has snapshots, omitting empty dates.  The
source advances the loop date with `datetime.timedelta` where `datetime`
is the class, so after processing the first date the increment raises
`AttributeError` and every call with `from_d ≤ to_d` fails — here even a
single-day range over a table with data for that day. -/
theorem c3_daily_raises_attribute_error :
    get_daily_utilization twoDayDb 1 0 0 =
      .error (.attributeError
        "type object datetime.datetime has no attribute timedelta") ∧
    get_daily_utilization twoDayDb 1 0 3 =
      .error (.attributeError
        "type object datetime.datetime has no attribute timedelta") := by
  exact ⟨rfl, rfl⟩

/-- Attempts failing twice, then succeeding with payload 42. -/
def attemptsSucceedThird : Nat → Except PyError Nat := fun i =>
  if i < 2 then .error (.httpError "timeout") else .ok 42

/-- Attempts that always fail. -/
def attemptsAllFail : Nat → Except PyError Nat := fun _ =>
  .error (.httpError "502 Bad Gateway")

/-- If every attempt fails, the retry loop ends in that error. -/
lemma makeRequestLoop_all_fail {α : Type} (att : Nat → Except PyError α)
    (e : PyError) (h : ∀ j, att j = .error e) :
    ∀ (fuel m i : Nat) (sleeps : List Nat), fuel + i = m → 1 ≤ fuel →
      (makeRequestLoop att m fuel i sleeps).1 = .error e := by
  intro fuel
  induction fuel with
  | zero => intro m i sleeps _ h2; omega
  | succ n ih =>
    intro m i sleeps hsum _
    simp only [makeRequestLoop]
    rw [h i]
    by_cases hi : i = m - 1
    · simp [hi]
    · simp only [if_neg hi]
      exact ih m (i + 1) (sleeps ++ [2 ^ i]) (by omega) (by omega)

/-- C4: `_make_request` retry behaviour. (1) A failed attempt `i` that is
not the last sleeps `2 ^ i` seconds and retries; (2) with `max_retries =
3`, failing twice then succeeding on the third attempt returns the
payload, having slept `2 ^ 0` then `2 ^ 1` seconds; (3) failing on all
`max_retries ≥ 1` attempts raises the last error. -/
theorem c4_make_request_retry :
    (∀ {α : Type} (att : Nat → Except PyError α) (m fuel i : Nat)
        (sleeps : List Nat) (e : PyError),
        att i = .error e → i ≠ m - 1 →
        makeRequestLoop att m (fuel + 1) i sleeps =
          makeRequestLoop att m fuel (i + 1) (sleeps ++ [2 ^ i])) ∧
    (∀ {α : Type} (att : Nat → Except PyError α) (p : α) (e0 e1 : PyError),
        att 0 = .error e0 → att 1 = .error e1 → att 2 = .ok p →
        make_request att 3 = (.ok p, [2 ^ 0, 2 ^ 1])) ∧
    (∀ {α : Type} (att : Nat → Except PyError α) (e : PyError) (m : Nat),
        1 ≤ m → (∀ j, att j = .error e) →
        (make_request att m).1 = .error e) := by
  refine ⟨?_, ?_, ?_⟩
  · intro α att m fuel i sleeps e h hi
    simp only [makeRequestLoop]
    rw [h]
    simp [hi]
  · intro α att p e0 e1 h0 h1 h2
    simp only [make_request, makeRequestLoop]
    rw [h0, h1, h2]
    simp
  · intro α att e m hm h
    exact makeRequestLoop_all_fail att e h m m 0 [] (by omega) hm

/-- Witness for C4: the two concrete scenarios of the claim, at
`max_retries = 3`. -/
theorem c4_make_request_retry_witness :
    make_request attemptsSucceedThird 3 = (.ok 42, [2 ^ 0, 2 ^ 1]) ∧
    (make_request attemptsAllFail 3).1 =
      .error (.httpError "502 Bad Gateway") :=
  ⟨c4_make_request_retry.2.1 attemptsSucceedThird 42 (.httpError "timeout")
      (.httpError "timeout") rfl rfl rfl,
    c4_make_request_retry.2.2 attemptsAllFail (.httpError "502 Bad Gateway")
      3 (by omega) (fun _ => rfl)⟩

/-- C5: the monitoring-window test: a null bound means always inside; a
non-crossing window `s ≤ e` contains exactly `[s, e]`; a midnight-crossing
window `e < s` contains exactly `now ≥ s ∨ now ≤ e`; and for the window
22:00–02:00, 23:30 and 01:00 are inside while 12:00 is outside. -/
theorem c5_monitoring_window :
    (∀ (now : Nat) (e : Option Nat),
        is_within_monitoring_window now none e = true) ∧
    (∀ (now : Nat) (s : Option Nat),
        is_within_monitoring_window now s none = true) ∧
    (∀ (now s e : Nat), s ≤ e →
        (is_within_monitoring_window now (some s) (some e) = true ↔
          s ≤ now ∧ now ≤ e)) ∧
    (∀ (now s e : Nat), e < s →
        (is_within_monitoring_window now (some s) (some e) = true ↔
          s ≤ now ∨ now ≤ e)) ∧
    (is_within_monitoring_window 1410 (some 1320) (some 120) = true ∧
      is_within_monitoring_window 60 (some 1320) (some 120) = true ∧
      is_within_monitoring_window 720 (some 1320) (some 120) = false) := by
  refine ⟨?_, ?_, ?_, ?_, by decide⟩
  · intro now e
    cases e <;> rfl
  · intro now s
    cases s <;> rfl
  · intro now s e h
    simp [is_within_monitoring_window, if_pos h]
  · intro now s e h
    simp [is_within_monitoring_window, if_neg (not_le.mpr h)]

/-- Witness for C5: the non-crossing and crossing characterisations at
concrete windows. -/
theorem c5_monitoring_window_witness :
    is_within_monitoring_window 600 (some 540) (some 1080) = true ∧
    is_within_monitoring_window 1410 (some 1320) (some 150) = true :=
  ⟨(c5_monitoring_window.2.2.1 600 540 1080 (by omega)).mpr (by omega),
    (c5_monitoring_window.2.2.2.1 1410 1320 150 (by omega)).mpr
      (Or.inl (by omega))⟩

/-- `should_run_now` on a non-null `last_run_at` is exactly the comparison
of elapsed seconds against the frequency in seconds. -/
lemma should_run_now_some_iff (t f now : ℚ) :
    should_run_now (some t) f now = true ↔ f * 60 ≤ now - t := by
  simp only [should_run_now, decide_eq_true_eq]
  rw [le_div_iff₀ (by norm_num : (0 : ℚ) < 60)]

/-- C6: the due check: a null `last_run_at` is always due; otherwise due
exactly when at least `frequency_minutes` minutes have elapsed; with a
frequency of 15 minutes, 14 elapsed minutes are not due while 15 or more
are. -/
theorem c6_due_check :
    (∀ (f now : ℚ), should_run_now none f now = true) ∧
    (∀ (t f now : ℚ),
        (should_run_now (some t) f now = true ↔ f * 60 ≤ now - t)) ∧
    (∀ (now : ℚ),
        should_run_now (some (now - 14 * 60)) 15 now = false ∧
        should_run_now (some (now - 15 * 60)) 15 now = true ∧
        ∀ t : ℚ, t ≤ now - 15 * 60 → should_run_now (some t) 15 now = true) := by
  refine ⟨fun f now => rfl, should_run_now_some_iff, ?_⟩
  intro now
  refine ⟨?_, ?_, ?_⟩
  · rw [Bool.eq_false_iff]
    intro hc
    have := (should_run_now_some_iff (now - 14 * 60) 15 now).mp hc
    linarith
  · exact (should_run_now_some_iff (now - 15 * 60) 15 now).mpr (by linarith)
  · intro t ht
    exact (should_run_now_some_iff t 15 now).mpr (by linarith)

/-- Witness for C6: the 15-minute scenario at a concrete instant. -/
theorem c6_due_check_witness :
    should_run_now (some (100000 - 14 * 60)) 15 100000 = false ∧
    should_run_now (some (100000 - 15 * 60)) 15 100000 = true ∧
    should_run_now none 15 100000 = true :=
  ⟨(c6_due_check.2.2 100000).1, (c6_due_check.2.2 100000).2.1,
    c6_due_check.1 15 100000⟩

/-- A club table containing only club 1. -/
def oneClub : Nat → Bool := fun i => i == 1

/-- Local time-of-day 12:00 for every club. -/
def noonLocal : Nat → Nat := fun _ => 720

/-- A collect that always succeeds. -/
def collectOk : Nat → Nat → Except PyError Unit := fun _ _ => .ok ()

/-- A collect that always fails. -/
def collectFails : Nat → Nat → Except PyError Unit := fun _ _ =>
  .error (.httpError "upstream down")

/-- An enabled, windowless, never-run config for club 1. -/
def dueConfig : MConfig :=
  { club_id := 1, enabled := true, frequency_minutes := 15,
    start_time_local := none, end_time_local := none,
    days_ahead := 7, last_run_at := none }

/-- C7: `last_run_at` policy. (1) For a due, in-window config of an
existing club whose collect succeeds, `last_run_at` is set to `now_utc`;
(2) whenever the collect fails, the config is returned unchanged, under
every guard outcome; (3) within one tick, each config in the table is
processed independently of the configs around it, so one config's failure
cannot prevent the others from being evaluated. -/
theorem c7_last_run_at_policy :
    (∀ (ce : Nat → Bool) (lt : Nat → Nat)
        (coll : Nat → Nat → Except PyError Unit) (now : ℚ) (c : MConfig),
        ce c.club_id = true →
        is_within_monitoring_window (lt c.club_id) c.start_time_local
          c.end_time_local = true →
        should_run_now c.last_run_at c.frequency_minutes now = true →
        coll c.club_id c.days_ahead = .ok () →
        process_monitoring_config ce lt coll now c =
          { c with last_run_at := some now }) ∧
    (∀ (ce : Nat → Bool) (lt : Nat → Nat)
        (coll : Nat → Nat → Except PyError Unit) (now : ℚ) (c : MConfig)
        (e : PyError),
        coll c.club_id c.days_ahead = .error e →
        process_monitoring_config ce lt coll now c = c) ∧
    (∀ (ce : Nat → Bool) (lt : Nat → Nat)
        (coll : Nat → Nat → Except PyError Unit) (now : ℚ)
        (pre post : List MConfig) (c : MConfig),
        check_and_monitor ce lt coll now (pre ++ c :: post) =
          check_and_monitor ce lt coll now pre ++
            (if c.enabled then process_monitoring_config ce lt coll now c
              else c) :: check_and_monitor ce lt coll now post) := by
  refine ⟨?_, ?_, ?_⟩
  · intro ce lt coll now c h1 h2 h3 h4
    simp [process_monitoring_config, h1, h2, h3, h4]
  · intro ce lt coll now c e h
    unfold process_monitoring_config
    split
    · rfl
    split
    · rfl
    split
    · rfl
    rw [h]
  · intro ce lt coll now pre post c
    simp [check_and_monitor]

/-- Witness for C7: a due config is advanced by a successful collect and
left unchanged by a failing one. -/
theorem c7_last_run_at_policy_witness :
    process_monitoring_config oneClub noonLocal collectOk 1000 dueConfig =
      { dueConfig with last_run_at := some 1000 } ∧
    process_monitoring_config oneClub noonLocal collectFails 1000 dueConfig =
      dueConfig :=
  ⟨c7_last_run_at_policy.1 oneClub noonLocal collectOk 1000 dueConfig
      rfl rfl rfl rfl,
    c7_last_run_at_policy.2.1 oneClub noonLocal collectFails 1000 dueConfig
      (.httpError "upstream down") rfl⟩

/-- C8: the returned `booked_percentage` and `free_percentage` are the
corresponding count divided by `total_slots`, times 100, rounded to two
decimals, and both are exactly 0 when `total_slots` is 0 (in ℚ the
division-free guard of the source coincides with `x / 0 = 0`, so no
division-by-zero failure can occur). -/
theorem c8_percentage_formula (l : List Snapshot) :
    (computeStats l).booked_percentage =
      round2 (((computeStats l).booked_slots : ℚ) /
        ((computeStats l).total_slots : ℚ) * 100) ∧
    (computeStats l).free_percentage =
      round2 (((computeStats l).free_slots : ℚ) /
        ((computeStats l).total_slots : ℚ) * 100) ∧
    ((computeStats l).total_slots = 0 →
      (computeStats l).booked_percentage = 0 ∧
      (computeStats l).free_percentage = 0) := by
  by_cases h : l.length = 0
  · rcases List.length_eq_zero.mp h with rfl
    refine ⟨?_, ?_, fun _ => ⟨?_, ?_⟩⟩ <;>
      simp [computeStats, round2, roundHalfEven]
  · have hpos : 0 < l.length := Nat.pos_of_ne_zero h
    refine ⟨?_, ?_, fun h0 => absurd ?_ h⟩
    · simp [computeStats, hpos]
    · simp [computeStats, hpos]
    · simpa [computeStats] using h0

/-- Witness for C8: the empty snapshot table yields zero percentages. -/
theorem c8_percentage_formula_witness :
    (computeStats []).booked_percentage = 0 ∧
    (computeStats []).free_percentage = 0 :=
  (c8_percentage_formula []).2.2 rfl

/-- A list whose members all have one of the three stored statuses splits
into the three status filters. -/
lemma length_eq_three_filters (l : List Snapshot)
    (h : ∀ s ∈ l, s.status = "booked" ∨ s.status = "free" ∨
      s.status = "closed") :
    l.length =
      (l.filter (fun s => s.status == "booked")).length +
      (l.filter (fun s => s.status == "free")).length +
      (l.filter (fun s => s.status == "closed")).length := by
  induction l with
  | nil => rfl
  | cons x xs ih =>
    have hx := h x (List.mem_cons_self x xs)
    have ih2 := ih (fun s hs => h s (List.mem_cons_of_mem x hs))
    rcases hx with h1 | h1 | h1 <;>
      simp [List.filter_cons, h1, ih2] <;> omega

/-- C9: whenever every snapshot carries one of the three stored statuses,
`total_slots` is the sum of the booked, free and closed counts; and the
status the collector derives for a raw slot is always one of those three
values. -/
theorem c9_total_is_sum (l : List Snapshot)
    (h : ∀ s ∈ l, s.status = "booked" ∨ s.status = "free" ∨
      s.status = "closed") :
    (computeStats l).total_slots =
      (computeStats l).booked_slots + (computeStats l).free_slots +
        (computeStats l).closed_slots ∧
    ∀ slot : RawSlot, derive_status slot = "booked" ∨
      derive_status slot = "free" ∨ derive_status slot = "closed" := by
  constructor
  · simpa [computeStats] using length_eq_three_filters l h
  · intro slot
    cases hc : slot.closed <;> cases ha : slot.available <;>
      simp [derive_status, hc, ha]

/-- Witness for C9: the two-day snapshot table satisfies the partition. -/
theorem c9_total_is_sum_witness :
    (computeStats twoDayDb).total_slots =
      (computeStats twoDayDb).booked_slots +
        (computeStats twoDayDb).free_slots +
        (computeStats twoDayDb).closed_slots :=
  (c9_total_is_sum twoDayDb (by decide)).1

/-- A raw slot priced at exactly 0. -/
def zeroPricedSlot : RawSlot :=
  { start_time := 600, end_time := 690, available := true, closed := false,
    price := some 0 }

/-- C10: a raw slot priced 0 is stored with a null price, and the whole
stored snapshot (and hence the response slot, which carries the same
fields) is identical to the one produced for the same slot with no price
at all. -/
theorem c10_zero_price_stored_null (slot : RawSlot) (sid club court : Nat)
    (d : Int) (t : Nat) (h : slot.price = some 0) :
    (process_slot sid club court d t slot).price = none ∧
    process_slot sid club court d t slot =
      process_slot sid club court d t { slot with price := none } := by
  constructor
  · simp [process_slot, storedPrice, h]
  · simp [process_slot, storedPrice, derive_status, h]

/-- Witness for C10: the zero-priced slot is stored exactly like the
price-less one. -/
theorem c10_zero_price_stored_null_witness :
    (process_slot 1 1 1 0 50 zeroPricedSlot).price = none ∧
    process_slot 1 1 1 0 50 zeroPricedSlot =
      process_slot 1 1 1 0 50 { zeroPricedSlot with price := none } :=
  c10_zero_price_stored_null zeroPricedSlot 1 1 1 0 50 rfl

end Battleborn
